import Mathlib

/-!
# Verification of tf-ebs-attach (main.go)

Shallow embedding of the core of `tf-ebs-attach`: the Terraform state data
model, the `volumeAttachmentID` hash-based identifier, the record synthesizer
`newAwsVolumeAttachmentState`, the locate-and-inject loop
`injectVolumeAttachment`, and the `show` / `import` mode drivers.

Go maps are embedded as association lists with `List.lookup`; Go map
assignment is `mapInsert`, which overwrites an existing binding in place and
otherwise appends.  Machine integers are `Nat` / `Int` with explicit
reduction modulo `2 ^ 32` where the source works on 32-bit quantities.
Process exit via `die` before an output write is embedded as
`Except.error` / `Option.none`.
-/

namespace TfEbsAttach

/-- A Go `interface{}` value as it can appear in a parsed JSON state file;
used for the `Meta` field of an instance state and module `Outputs`. -/
inductive GoValue : Type where
  | null : GoValue
  | str : String → GoValue
  | num : Int → GoValue
  | boolean : Bool → GoValue
  | arr : List GoValue → GoValue
  | obj : List (String × GoValue) → GoValue

/-- terraform.InstanceState: the primary record of a resource
(fields used by main.go: ID, Attributes, Meta, Tainted). -/
structure InstanceState : Type where
  id : String
  attributes : List (String × String)
  meta : List (String × GoValue)
  tainted : Bool

/-- terraform.ResourceState (fields used by main.go: Type, Dependencies,
Primary, Deposed). -/
structure ResourceState : Type where
  type : String
  dependencies : List String
  primary : InstanceState
  deposed : List InstanceState

/-- terraform.ModuleState (fields relevant to main.go: the Resources map;
Path and Outputs carried to express that injection leaves them untouched). -/
structure ModuleState : Type where
  path : List String
  outputs : List (String × GoValue)
  resources : List (String × ResourceState)

/-- terraform.State: the parsed state document; `modules` is the ordered
sequence the injection loop scans. -/
structure State : Type where
  version : Int
  serial : Int
  lineage : String
  modules : List ModuleState

/-- Go map assignment `m[k] = v`: overwrite the binding of `k` if present,
otherwise add a new binding. -/
def mapInsert {α : Type} (k : String) (v : α) : List (String × α) → List (String × α)
  | [] => [(k, v)]
  | (k', v') :: rest => if k' = k then (k, v) :: rest else (k', v') :: mapInsert k v rest

/-- UTF-8 encoding of one character, as byte values below 256; mirrors Go's
`[]byte(s)` conversion of a string element. -/
def utf8Bytes (c : Char) : List Nat :=
  let n := c.toNat
  if n < 0x80 then [n]
  else if n < 0x800 then
    [0xC0 + n / 0x40, 0x80 + n % 0x40]
  else if n < 0x10000 then
    [0xE0 + n / 0x1000, 0x80 + n / 0x40 % 0x40, 0x80 + n % 0x40]
  else
    [0xF0 + n / 0x40000, 0x80 + n / 0x1000 % 0x40, 0x80 + n / 0x40 % 0x40, 0x80 + n % 0x40]

/-- The bytes of a Go string: UTF-8 encoding of its characters. -/
def strBytes (s : String) : List Nat :=
  (s.data.map utf8Bytes).flatten

/-- The reflected CRC-32/IEEE generator polynomial, as used by Go's
`crc32.ChecksumIEEE`. -/
def crc32Poly : Nat := 0xEDB88320

/-- One bit step of the reflected CRC-32 computation. -/
def crc32Round (crc : Nat) : Nat :=
  if crc % 2 = 1 then Nat.xor (crc / 2) crc32Poly else crc / 2

/-- Absorb one byte into the running CRC: xor it in, then run eight bit
steps. -/
def crc32Update (crc b : Nat) : Nat :=
  Nat.iterate crc32Round 8 (Nat.xor crc b)

/-- CRC-32/IEEE of a byte sequence (init `0xFFFFFFFF`, final xor
`0xFFFFFFFF`), the checksum computed by Go's `crc32.ChecksumIEEE`. -/
def crc32 (bytes : List Nat) : Nat :=
  Nat.xor (bytes.foldl crc32Update 0xFFFFFFFF) 0xFFFFFFFF

/-- Modelled from the spec: the well-known "hashcode" algorithm of
infrastructure-as-code tooling (the dependency
`github.com/hashicorp/terraform/helper/hashcode`, not vendored under the
sources): the CRC-32/IEEE checksum of the string's bytes, converted to a
signed machine integer, negated when negative and clamped to 0 at the
minimal integer.  The project's builds target 64-bit platforms
(linux-amd64 / darwin in the Makefile), so the conversion from the 32-bit
checksum to `int` never produces a negative value. -/
def hashcodeString (s : String) : Int :=
  let v : Int := Int.ofNat (crc32 (strBytes s))
  if 0 ≤ v then v
  else if 0 ≤ -v then -v
  else 0

/-- main.go `volumeAttachmentID`: build the raw key by appending `name ++ "-"`,
`instanceID ++ "-"`, `volumeID ++ "-"` to an empty buffer, then format
`"vai-%d"` of its hashcode. -/
def volumeAttachmentID (name volumeID instanceID : String) : String :=
  let buf : String := "" ++ (name ++ "-") ++ (instanceID ++ "-") ++ (volumeID ++ "-")
  "vai-" ++ toString (hashcodeString buf)

/-- main.go `newAwsVolumeAttachmentState`: the synthesized resource record
for the volume attachment. -/
def newAwsVolumeAttachmentState (instanceID volumeName volumeID deviceName : String) :
    ResourceState :=
  { type := "aws_volume_attachment"
    dependencies := ["aws_ebs_volume." ++ volumeName]
    primary :=
      { id := volumeAttachmentID deviceName volumeID instanceID
        attributes :=
          [("id", volumeAttachmentID deviceName volumeID instanceID),
           ("device_name", deviceName),
           ("instance_id", instanceID),
           ("volume_id", volumeID)]
        meta := []
        tainted := false }
    deposed := [] }

/-- The resource key `"aws_instance.<instanceName>"` searched by the loop. -/
def instanceKey (instanceName : String) : String :=
  "aws_instance." ++ instanceName

/-- The resource key `"aws_ebs_volume.<volumeName>"` searched by the loop. -/
def volumeKey (volumeName : String) : String :=
  "aws_ebs_volume." ++ volumeName

/-- The resource key `"aws_volume_attachment.<attachmentName>"` under which
the synthesized record is stored. -/
def attachmentKey (attachmentName : String) : String :=
  "aws_volume_attachment." ++ attachmentName

/-- The message passed to `die` when no module contains both resources. -/
def notFoundMessage (instanceName volumeName : String) : String :=
  "Could not locate module in tfstate containing (\"" ++ instanceKey instanceName ++
    "\", \"" ++ volumeKey volumeName ++ "\")"

/-- The search performed by the loop in main.go `injectVolumeAttachment`,
described in the spec as `locate`: scan the modules in document order for the
first one whose resources contain both the instance key and the volume key,
returning its index together with the `Primary.ID` of each record; modules
containing at most one of the two keys are skipped. -/
def locate (instanceName volumeName : String) :
    List ModuleState → Option (Nat × String × String)
  | [] => none
  | m :: rest =>
    match List.lookup (instanceKey instanceName) m.resources with
    | none =>
      (locate instanceName volumeName rest).map (fun r => (r.1 + 1, r.2))
    | some instanceState =>
      match List.lookup (volumeKey volumeName) m.resources with
      | some volumeState =>
        some (0, instanceState.primary.id, volumeState.primary.id)
      | none =>
        (locate instanceName volumeName rest).map (fun r => (r.1 + 1, r.2))

/-- Store the synthesized record in a module's resources map under the
attachment key (the map assignment inside the loop). -/
def injectModule (attachmentName : String) (record : ResourceState) (m : ModuleState) :
    ModuleState :=
  { m with resources := mapInsert (attachmentKey attachmentName) record m.resources }

/-- The loop body of main.go `injectVolumeAttachment` over the module list:
on the first module containing both keys, synthesize the record from the two
primary IDs and store it there; if the scan completes without a match, `die`
with the not-found message (embedded as `Except.error`). -/
def injectModules (instanceName volumeName attachmentName deviceName : String) :
    List ModuleState → Except String (List ModuleState)
  | [] => .error (notFoundMessage instanceName volumeName)
  | m :: rest =>
    match List.lookup (instanceKey instanceName) m.resources with
    | none =>
      (injectModules instanceName volumeName attachmentName deviceName rest).map (m :: ·)
    | some instanceState =>
      match List.lookup (volumeKey volumeName) m.resources with
      | some volumeState =>
        .ok (injectModule attachmentName
              (newAwsVolumeAttachmentState instanceState.primary.id volumeName
                volumeState.primary.id deviceName) m :: rest)
      | none =>
        (injectModules instanceName volumeName attachmentName deviceName rest).map (m :: ·)

/-- main.go `injectVolumeAttachment` on a whole state document: modify the
module list, leaving the remaining fields of the state untouched. -/
def injectVolumeAttachment (instanceName volumeName attachmentName deviceName : String)
    (tfstate : State) : Except String State :=
  (injectModules instanceName volumeName attachmentName deviceName tfstate.modules).map
    (fun ms => { tfstate with modules := ms })

/-- main.go `showMode`: the map printed by show mode — the synthesized record
wrapped under the attachment key, from caller-supplied identifiers. -/
def showMode (instanceID volumeName volumeID attachmentName deviceName : String) :
    List (String × ResourceState) :=
  [(attachmentKey attachmentName,
    newAwsVolumeAttachmentState instanceID volumeName volumeID deviceName)]

/-- main.go `importMode`: read, inject, write.  `die` inside the injection
exits the process before `writeTfState` runs, so a failed injection is
embedded as `none` = nothing written, and `some st` = the full updated
document written. -/
def importMode (instanceName volumeName attachmentName deviceName : String)
    (tfstate : State) : Option State :=
  (injectVolumeAttachment instanceName volumeName attachmentName deviceName tfstate).toOption

/-- Spec-side predicate: the module's resources contain both the instance key
and the volume key. -/
def hasBoth (instanceName volumeName : String) (m : ModuleState) : Prop :=
  (List.lookup (instanceKey instanceName) m.resources).isSome = true ∧
  (List.lookup (volumeKey volumeName) m.resources).isSome = true

instance (instanceName volumeName : String) (m : ModuleState) :
    Decidable (hasBoth instanceName volumeName m) := by
  unfold hasBoth; infer_instance

/-- Modelled from the spec: a 32-bit FNV-1a string hash, as named by the
spec's description of the identifier hash ("a standard FNV-1a-style 32-bit
hash"); defined here only to compare that description against the hash the
code actually uses. -/
def fnv1a32 (bytes : List Nat) : Nat :=
  bytes.foldl (fun h b => Nat.xor h b * 16777619 % 2 ^ 32) 2166136261

/-! ## Helper lemmas -/

theorem lookup_mapInsert_self {α : Type} (k : String) (v : α) (l : List (String × α)) :
    List.lookup k (mapInsert k v l) = some v := by
  induction l with
  | nil => simp [mapInsert, List.lookup]
  | cons p rest ih =>
    obtain ⟨k', v'⟩ := p
    by_cases h : k' = k
    · simp [mapInsert, h, List.lookup]
    · simp only [mapInsert, if_neg h, List.lookup]
      rw [beq_false_of_ne (Ne.symm h)]
      exact ih

theorem lookup_mapInsert_ne {α : Type} {k k' : String} (v : α) (l : List (String × α))
    (h : k' ≠ k) : List.lookup k' (mapInsert k v l) = List.lookup k' l := by
  induction l with
  | nil => simp [mapInsert, List.lookup, beq_false_of_ne h]
  | cons p rest ih =>
    obtain ⟨k₀, v₀⟩ := p
    by_cases hk : k₀ = k
    · subst hk
      simp only [mapInsert, if_pos rfl, List.lookup, beq_false_of_ne h]
    · simp only [mapInsert, if_neg hk, List.lookup]
      cases hb : k' == k₀ with
      | true => rfl
      | false => exact ih

theorem length_mapInsert_isSome {α : Type} {k : String} {l : List (String × α)} (v : α)
    (h : (List.lookup k l).isSome = true) :
    (mapInsert k v l).length = l.length := by
  induction l with
  | nil => simp [List.lookup] at h
  | cons p rest ih =>
    obtain ⟨k₀, v₀⟩ := p
    by_cases hk : k₀ = k
    · simp [mapInsert, hk]
    · simp only [mapInsert, if_neg hk, List.length_cons]
      simp only [List.lookup, beq_false_of_ne (fun he => hk he.symm)] at h
      rw [ih h]

theorem locate_cons_none {iN vN : String} {m : ModuleState} {rest : List ModuleState}
    (h : List.lookup (instanceKey iN) m.resources = none) :
    locate iN vN (m :: rest) = (locate iN vN rest).map (fun r => (r.1 + 1, r.2)) := by
  simp [locate, h]

theorem locate_cons_noVol {iN vN : String} {m : ModuleState} {rest : List ModuleState}
    {instanceState : ResourceState}
    (h : List.lookup (instanceKey iN) m.resources = some instanceState)
    (h' : List.lookup (volumeKey vN) m.resources = none) :
    locate iN vN (m :: rest) = (locate iN vN rest).map (fun r => (r.1 + 1, r.2)) := by
  simp [locate, h, h']

theorem locate_cons_both {iN vN : String} {m : ModuleState} {rest : List ModuleState}
    {instanceState volumeState : ResourceState}
    (h : List.lookup (instanceKey iN) m.resources = some instanceState)
    (h' : List.lookup (volumeKey vN) m.resources = some volumeState) :
    locate iN vN (m :: rest) =
      some (0, instanceState.primary.id, volumeState.primary.id) := by
  simp [locate, h, h']

theorem injectModules_of_locate_some {iN vN aN dN : String} {ms : List ModuleState}
    {k : Nat} {iid vid : String} (h : locate iN vN ms = some (k, iid, vid)) :
    ∃ hk : k < ms.length,
      injectModules iN vN aN dN ms =
        .ok (ms.set k (injectModule aN (newAwsVolumeAttachmentState iid vN vid dN)
          (ms.get ⟨k, hk⟩))) := by
  induction ms generalizing k with
  | nil => simp [locate] at h
  | cons m rest ih =>
    cases hi : List.lookup (instanceKey iN) m.resources with
    | none =>
      rw [locate_cons_none hi, Option.map_eq_some'] at h
      obtain ⟨⟨k₀, iid₀, vid₀⟩, hrest, heq⟩ := h
      simp only [Prod.mk.injEq] at heq
      obtain ⟨hk₁, hk₂, hk₃⟩ := heq
      subst hk₁; subst hk₂; subst hk₃
      obtain ⟨hk₀, hinj⟩ := ih hrest
      refine ⟨by simpa using Nat.succ_lt_succ hk₀, ?_⟩
      simp only [injectModules, hi, hinj, Except.map, List.set_cons_succ]
      rfl
    | some instanceState =>
      cases hv : List.lookup (volumeKey vN) m.resources with
      | some volumeState =>
        rw [locate_cons_both hi hv] at h
        simp only [Option.some.injEq, Prod.mk.injEq] at h
        obtain ⟨hk₁, hk₂, hk₃⟩ := h
        subst hk₁; subst hk₂; subst hk₃
        refine ⟨Nat.succ_pos _, ?_⟩
        simp [injectModules, hi, hv]
      | none =>
        rw [locate_cons_noVol hi hv, Option.map_eq_some'] at h
        obtain ⟨⟨k₀, iid₀, vid₀⟩, hrest, heq⟩ := h
        simp only [Prod.mk.injEq] at heq
        obtain ⟨hk₁, hk₂, hk₃⟩ := heq
        subst hk₁; subst hk₂; subst hk₃
        obtain ⟨hk₀, hinj⟩ := ih hrest
        refine ⟨by simpa using Nat.succ_lt_succ hk₀, ?_⟩
        simp only [injectModules, hi, hv, hinj, Except.map, List.set_cons_succ]
        rfl

theorem locate_none_iff {iN vN : String} {ms : List ModuleState} :
    locate iN vN ms = none ↔ ∀ m ∈ ms, ¬ hasBoth iN vN m := by
  induction ms with
  | nil => simp [locate]
  | cons m rest ih =>
    cases hi : List.lookup (instanceKey iN) m.resources with
    | none =>
      rw [locate_cons_none hi]
      simp only [Option.map_eq_none', ih, List.mem_cons]
      constructor
      · rintro hrest m' (rfl | hm')
        · rintro ⟨hb, -⟩
          rw [hi] at hb
          simp at hb
        · exact hrest m' hm'
      · intro hall m' hm'
        exact hall m' (Or.inr hm')
    | some instanceState =>
      cases hv : List.lookup (volumeKey vN) m.resources with
      | some volumeState =>
        rw [locate_cons_both hi hv]
        constructor
        · intro h
          simp at h
        · intro hall
          exact absurd (⟨by simp [hi], by simp [hv]⟩ : hasBoth iN vN m)
            (hall m (List.mem_cons_self m rest))
      | none =>
        rw [locate_cons_noVol hi hv]
        simp only [Option.map_eq_none', ih, List.mem_cons]
        constructor
        · rintro hrest m' (rfl | hm')
          · rintro ⟨-, hb⟩
            rw [hv] at hb
            simp at hb
          · exact hrest m' hm'
        · intro hall m' hm'
          exact hall m' (Or.inr hm')

theorem injectModules_of_locate_none {iN vN aN dN : String} {ms : List ModuleState}
    (h : locate iN vN ms = none) :
    injectModules iN vN aN dN ms = .error (notFoundMessage iN vN) := by
  induction ms with
  | nil => rfl
  | cons m rest ih =>
    cases hi : List.lookup (instanceKey iN) m.resources with
    | none =>
      rw [locate_cons_none hi, Option.map_eq_none'] at h
      simp [injectModules, hi, ih h, Except.map]
    | some instanceState =>
      cases hv : List.lookup (volumeKey vN) m.resources with
      | some volumeState =>
        rw [locate_cons_both hi hv] at h
        exact absurd h (by simp)
      | none =>
        rw [locate_cons_noVol hi hv, Option.map_eq_none'] at h
        simp [injectModules, hi, hv, ih h, Except.map]

theorem locate_some_of_injectModules_ok {iN vN aN dN : String} {ms ms' : List ModuleState}
    (h : injectModules iN vN aN dN ms = .ok ms') :
    ∃ k iid vid, locate iN vN ms = some (k, iid, vid) := by
  cases hl : locate iN vN ms with
  | none =>
    rw [injectModules_of_locate_none hl] at h
    exact absurd h (by simp)
  | some r =>
    obtain ⟨k, iid, vid⟩ := r
    exact ⟨k, iid, vid, rfl⟩

theorem locate_ids {iN vN : String} {ms : List ModuleState} {k : Nat} {iid vid : String}
    (h : locate iN vN ms = some (k, iid, vid)) :
    ∃ (hk : k < ms.length) (rs rv : ResourceState),
      List.lookup (instanceKey iN) (ms.get ⟨k, hk⟩).resources = some rs ∧
      List.lookup (volumeKey vN) (ms.get ⟨k, hk⟩).resources = some rv ∧
      iid = rs.primary.id ∧ vid = rv.primary.id ∧
      ∀ j, j < k → ∀ hj : j < ms.length, ¬ hasBoth iN vN (ms.get ⟨j, hj⟩) := by
  induction ms generalizing k with
  | nil => simp [locate] at h
  | cons m rest ih =>
    cases hi : List.lookup (instanceKey iN) m.resources with
    | none =>
      rw [locate_cons_none hi, Option.map_eq_some'] at h
      obtain ⟨⟨k₀, iid₀, vid₀⟩, hrest, heq⟩ := h
      simp only [Prod.mk.injEq] at heq
      obtain ⟨hk₁, hk₂, hk₃⟩ := heq
      subst hk₁; subst hk₂; subst hk₃
      obtain ⟨hk₀, rs, rv, hrs, hrv, hiid, hvid, hmin⟩ := ih hrest
      refine ⟨by simpa using Nat.succ_lt_succ hk₀, rs, rv, hrs, hrv, hiid, hvid, ?_⟩
      intro j hj hjlen
      cases j with
      | zero =>
        rintro ⟨hb, -⟩
        rw [show (m :: rest).get ⟨0, hjlen⟩ = m from rfl, hi] at hb
        simp at hb
      | succ j₀ =>
        exact hmin j₀ (Nat.lt_of_succ_lt_succ hj) (Nat.lt_of_succ_lt_succ hjlen)
    | some instanceState =>
      cases hv : List.lookup (volumeKey vN) m.resources with
      | some volumeState =>
        rw [locate_cons_both hi hv] at h
        simp only [Option.some.injEq, Prod.mk.injEq] at h
        obtain ⟨hk₁, hk₂, hk₃⟩ := h
        subst hk₁; subst hk₂; subst hk₃
        exact ⟨Nat.succ_pos _, instanceState, volumeState, hi, hv, rfl, rfl,
          fun j hj _ => absurd hj (Nat.not_lt_zero j)⟩
      | none =>
        rw [locate_cons_noVol hi hv, Option.map_eq_some'] at h
        obtain ⟨⟨k₀, iid₀, vid₀⟩, hrest, heq⟩ := h
        simp only [Prod.mk.injEq] at heq
        obtain ⟨hk₁, hk₂, hk₃⟩ := heq
        subst hk₁; subst hk₂; subst hk₃
        obtain ⟨hk₀, rs, rv, hrs, hrv, hiid, hvid, hmin⟩ := ih hrest
        refine ⟨by simpa using Nat.succ_lt_succ hk₀, rs, rv, hrs, hrv, hiid, hvid, ?_⟩
        intro j hj hjlen
        cases j with
        | zero =>
          rintro ⟨-, hb⟩
          rw [show (m :: rest).get ⟨0, hjlen⟩ = m from rfl, hv] at hb
          simp at hb
        | succ j₀ =>
          exact hmin j₀ (Nat.lt_of_succ_lt_succ hj) (Nat.lt_of_succ_lt_succ hjlen)

/-! ## Concrete fixtures (used by the witness theorems) -/

/-- A concrete instance record with primary ID `i-11111111`. -/
def demoInstanceRecord : ResourceState :=
  { type := "aws_instance", dependencies := [],
    primary := { id := "i-11111111", attributes := [], meta := [], tainted := false },
    deposed := [] }

/-- A concrete volume record with primary ID `vol-22222222`. -/
def demoVolumeRecord : ResourceState :=
  { type := "aws_ebs_volume", dependencies := [],
    primary := { id := "vol-22222222", attributes := [], meta := [], tainted := false },
    deposed := [] }

/-- A module containing only the instance resource (exercises the skip path
of the scan). -/
def demoModuleInstanceOnly : ModuleState :=
  { path := ["root"], outputs := [],
    resources := [("aws_instance.mysrv", demoInstanceRecord)] }

/-- A module containing both the instance and the volume resources. -/
def demoModuleBoth : ModuleState :=
  { path := ["root", "sub"], outputs := [],
    resources := [("aws_instance.mysrv", demoInstanceRecord),
                  ("aws_ebs_volume.mysrv_dsk0", demoVolumeRecord)] }

/-- A two-module state document where only module 1 contains both
resources. -/
def demoState : State :=
  { version := 3, serial := 1, lineage := "demo", modules :=
      [demoModuleInstanceOnly, demoModuleBoth] }

/-- A state document in which no module contains both resources. -/
def demoStateNoMatch : State :=
  { version := 3, serial := 1, lineage := "demo", modules :=
      [demoModuleInstanceOnly] }

/-- A module that already contains a record under the attachment key. -/
def demoModulePre : ModuleState :=
  { path := ["root"], outputs := [],
    resources := [("aws_instance.mysrv", demoInstanceRecord),
                  ("aws_ebs_volume.mysrv_dsk0", demoVolumeRecord),
                  ("aws_volume_attachment.mysrv_dsk0_attch", demoVolumeRecord)] }

/-- A state document whose single module already holds a stale record under
the attachment key. -/
def demoStatePre : State :=
  { version := 3, serial := 1, lineage := "demo", modules := [demoModulePre] }

/-! ## Claim theorems -/

/-- C1: for every deviceName, instanceIdentifier and volumeIdentifier, the
synthesized identifier is `"vai-"` followed by the decimal rendering of the
hash of the raw key `deviceName ++ "-" ++ instanceIdentifier ++ "-" ++
volumeIdentifier ++ "-"`: the three components concatenated in exactly this
order, each followed by a literal hyphen, before hashing. -/
theorem volumeAttachmentID_rawKey_order (deviceName instanceID volumeID : String) :
    volumeAttachmentID deviceName volumeID instanceID =
      "vai-" ++ toString (hashcodeString
        (deviceName ++ "-" ++ instanceID ++ "-" ++ volumeID ++ "-")) := by
  simp [volumeAttachmentID, String.append_assoc]

set_option maxRecDepth 40000 in
/-- C2, counterexample: the hash behind the identifier is not an FNV-1a-style
32-bit hash — at the fixture inputs (instance `i-abc123`, volume
`vol-123abc`, device `/dev/sdg`) the computed identifier differs from
`"vai-"` followed by the decimal FNV-1a-32 hash of the raw key. -/
theorem volumeAttachmentID_not_fnv1a :
    volumeAttachmentID "/dev/sdg" "vol-123abc" "i-abc123" ≠
      "vai-" ++ toString (Int.ofNat (fnv1a32 (strBytes
        ("/dev/sdg" ++ "-" ++ "i-abc123" ++ "-" ++ "vol-123abc" ++ "-")))) := by
  decide

set_option maxRecDepth 40000 in
/-- C2, amended: the 32-bit hash applied to the raw key is the reference
"hashcode" algorithm — the CRC-32/IEEE checksum of the raw key's bytes,
taken as a signed machine integer and negated when negative (the identity on
the 64-bit platforms this project builds for, since the checksum is below
`2 ^ 32`); for instance identifier `i-abc123`, volume identifier
`vol-123abc` and device `/dev/sdg` the computed identifier equals the golden
value `vai-1474069414`. -/
theorem volumeAttachmentID_hashcode_golden :
    (∀ s : String, hashcodeString s = Int.ofNat (crc32 (strBytes s))) ∧
    crc32 (strBytes "/dev/sdg-i-abc123-vol-123abc-") = 1474069414 ∧
    volumeAttachmentID "/dev/sdg" "vol-123abc" "i-abc123" = "vai-1474069414" := by
  refine ⟨fun s => ?_, by decide, by decide⟩
  simp only [hashcodeString]
  split
  · rfl
  · next hneg => exact absurd (Int.ofNat_nonneg _) hneg

/-- C3: the locator scan returns, for the first module in document order
containing both `aws_instance.<instanceName>` and
`aws_ebs_volume.<volumeName>`, its index together with the primary
identifier of each record, skipping every earlier module that lacks at
least one of the two keys; it yields nothing exactly when no module
contains both, in which case the injection fails with the not-found message
naming both resource keys. -/
theorem locate_first_match_correct (iN vN aN dN : String) (ms : List ModuleState) :
    (∀ k iid vid, locate iN vN ms = some (k, iid, vid) →
      ∃ (hk : k < ms.length) (rs rv : ResourceState),
        List.lookup (instanceKey iN) (ms.get ⟨k, hk⟩).resources = some rs ∧
        List.lookup (volumeKey vN) (ms.get ⟨k, hk⟩).resources = some rv ∧
        iid = rs.primary.id ∧ vid = rv.primary.id ∧
        ∀ j, j < k → ∀ hj : j < ms.length, ¬ hasBoth iN vN (ms.get ⟨j, hj⟩)) ∧
    (locate iN vN ms = none ↔ ∀ m ∈ ms, ¬ hasBoth iN vN m) ∧
    (locate iN vN ms = none →
      injectModules iN vN aN dN ms = .error (notFoundMessage iN vN)) :=
  ⟨fun _ _ _ h => locate_ids h, locate_none_iff, fun h => injectModules_of_locate_none h⟩

/-- Witness for C3 on the two-module fixture: the scan skips module 0 (which
has only the instance) and settles on module 1 with both primary IDs. -/
theorem locate_first_match_correct_witness :
    ∃ (hk : 1 < demoState.modules.length) (rs rv : ResourceState),
      List.lookup (instanceKey "mysrv") (demoState.modules.get ⟨1, hk⟩).resources = some rs ∧
      List.lookup (volumeKey "mysrv_dsk0") (demoState.modules.get ⟨1, hk⟩).resources = some rv ∧
      "i-11111111" = rs.primary.id ∧ "vol-22222222" = rv.primary.id ∧
      ∀ j, j < 1 → ∀ hj : j < demoState.modules.length,
        ¬ hasBoth "mysrv" "mysrv_dsk0" (demoState.modules.get ⟨j, hj⟩) :=
  (locate_first_match_correct "mysrv" "mysrv_dsk0" "mysrv_dsk0_attch" "/dev/sdg"
      demoState.modules).1 1 "i-11111111" "vol-22222222" (by decide)

/-- C4: the synthesized record has kind `aws_volume_attachment`, exactly the
dependency `aws_ebs_volume.<volumeName>`, a primary record whose identifier
is the computed `vai-` string, attributes mapping `id` to that identifier
and `device_name` / `instance_id` / `volume_id` to the inputs, an empty
metadata mapping and `tainted = false`. -/
theorem newAwsVolumeAttachmentState_fields
    (instanceID volumeName volumeID deviceName : String) :
    (newAwsVolumeAttachmentState instanceID volumeName volumeID deviceName).type =
        "aws_volume_attachment" ∧
    (newAwsVolumeAttachmentState instanceID volumeName volumeID deviceName).dependencies =
        ["aws_ebs_volume." ++ volumeName] ∧
    (newAwsVolumeAttachmentState instanceID volumeName volumeID deviceName).primary.id =
        volumeAttachmentID deviceName volumeID instanceID ∧
    List.lookup "id"
        (newAwsVolumeAttachmentState instanceID volumeName volumeID deviceName).primary.attributes =
        some (volumeAttachmentID deviceName volumeID instanceID) ∧
    List.lookup "device_name"
        (newAwsVolumeAttachmentState instanceID volumeName volumeID deviceName).primary.attributes =
        some deviceName ∧
    List.lookup "instance_id"
        (newAwsVolumeAttachmentState instanceID volumeName volumeID deviceName).primary.attributes =
        some instanceID ∧
    List.lookup "volume_id"
        (newAwsVolumeAttachmentState instanceID volumeName volumeID deviceName).primary.attributes =
        some volumeID ∧
    (newAwsVolumeAttachmentState instanceID volumeName volumeID deviceName).primary.meta = [] ∧
    (newAwsVolumeAttachmentState instanceID volumeName volumeID deviceName).primary.tainted =
        false :=
  ⟨rfl, rfl, rfl, rfl, rfl, rfl, rfl, rfl, rfl⟩

/-- C5: whenever injection succeeds, the untouched fields of the state and
every module other than the located one are unchanged, the located module
keeps its path and outputs and every resource under a key other than the
attachment key, and the attachment key maps to the one newly synthesized
record. -/
theorem injectVolumeAttachment_frame (iN vN aN dN : String) (st st' : State)
    (h : injectVolumeAttachment iN vN aN dN st = .ok st') :
    ∃ k iid vid,
      locate iN vN st.modules = some (k, iid, vid) ∧
      st'.version = st.version ∧ st'.serial = st.serial ∧ st'.lineage = st.lineage ∧
      st'.modules.length = st.modules.length ∧
      (∀ j, j ≠ k → st'.modules[j]? = st.modules[j]?) ∧
      ∃ m m', st.modules[k]? = some m ∧ st'.modules[k]? = some m' ∧
        m'.path = m.path ∧ m'.outputs = m.outputs ∧
        (∀ key, key ≠ attachmentKey aN →
          List.lookup key m'.resources = List.lookup key m.resources) ∧
        List.lookup (attachmentKey aN) m'.resources =
          some (newAwsVolumeAttachmentState iid vN vid dN) := by
  unfold injectVolumeAttachment at h
  cases he : injectModules iN vN aN dN st.modules with
  | error e => rw [he] at h; exact absurd h (by simp [Except.map])
  | ok ms' =>
    rw [he] at h
    simp only [Except.map, Except.ok.injEq] at h
    obtain ⟨k, iid, vid, hl⟩ := locate_some_of_injectModules_ok he
    obtain ⟨hk, hinj⟩ := @injectModules_of_locate_some iN vN aN dN st.modules k iid vid hl
    rw [he] at hinj
    simp only [Except.ok.injEq] at hinj
    subst hinj
    subst h
    refine ⟨k, iid, vid, hl, rfl, rfl, rfl, by simp [List.length_set], ?_, ?_⟩
    · intro j hj
      exact List.getElem?_set_ne (fun hkj => hj hkj.symm)
    · refine ⟨st.modules.get ⟨k, hk⟩,
        injectModule aN (newAwsVolumeAttachmentState iid vN vid dN) (st.modules.get ⟨k, hk⟩),
        ?_, ?_, rfl, rfl, ?_, ?_⟩
      · rw [List.getElem?_eq_getElem hk, List.get_eq_getElem]
      · exact List.getElem?_set_eq_of_lt _ hk
      · intro key hkey
        exact lookup_mapInsert_ne _ _ hkey
      · exact lookup_mapInsert_self _ _ _

/-- The document obtained by injecting the fixture attachment into
`demoState`: module 1 gains the synthesized record, all else is as before. -/
def injectResultState : State :=
  { version := 3, serial := 1, lineage := "demo", modules :=
      [demoModuleInstanceOnly,
       { path := ["root", "sub"], outputs := [],
         resources := [("aws_instance.mysrv", demoInstanceRecord),
                       ("aws_ebs_volume.mysrv_dsk0", demoVolumeRecord),
                       ("aws_volume_attachment.mysrv_dsk0_attch",
                         newAwsVolumeAttachmentState "i-11111111" "mysrv_dsk0"
                           "vol-22222222" "/dev/sdg")] }] }

set_option maxRecDepth 40000 in
set_option maxHeartbeats 2000000 in
/-- Witness for C5: inject into the two-module fixture and read back the
frame facts. -/
theorem injectVolumeAttachment_frame_witness :
    ∃ k iid vid,
      locate "mysrv" "mysrv_dsk0" demoState.modules = some (k, iid, vid) ∧
      (injectResultState).version = demoState.version ∧
      (injectResultState).serial = demoState.serial ∧
      (injectResultState).lineage = demoState.lineage ∧
      (injectResultState).modules.length = demoState.modules.length ∧
      (∀ j, j ≠ k → (injectResultState).modules[j]? = demoState.modules[j]?) ∧
      ∃ m m', demoState.modules[k]? = some m ∧ (injectResultState).modules[k]? = some m' ∧
        m'.path = m.path ∧ m'.outputs = m.outputs ∧
        (∀ key, key ≠ attachmentKey "mysrv_dsk0_attch" →
          List.lookup key m'.resources = List.lookup key m.resources) ∧
        List.lookup (attachmentKey "mysrv_dsk0_attch") m'.resources =
          some (newAwsVolumeAttachmentState iid "mysrv_dsk0" vid "/dev/sdg") :=
  injectVolumeAttachment_frame "mysrv" "mysrv_dsk0" "mysrv_dsk0_attch" "/dev/sdg"
    demoState injectResultState rfl

/-- C6: when the locator fails on the input document, import mode terminates
with a failure and writes nothing at all: in the embedding, `none` is the
run that exits via `die` before `writeTfState`, and `some` carries the full
updated document, so no partially updated document can ever be produced. -/
theorem importMode_fails_closed (iN vN aN dN : String) (st : State)
    (h : locate iN vN st.modules = none) :
    importMode iN vN aN dN st = none := by
  simp [importMode, injectVolumeAttachment, injectModules_of_locate_none h,
    Except.map, Except.toOption]

/-- Witness for C6: on a document whose only module lacks the volume
resource, import mode writes nothing. -/
theorem importMode_fails_closed_witness :
    importMode "mysrv" "mysrv_dsk0" "mysrv_dsk0_attch" "/dev/sdg" demoStateNoMatch = none :=
  importMode_fails_closed "mysrv" "mysrv_dsk0" "mysrv_dsk0_attch" "/dev/sdg"
    demoStateNoMatch (by decide)

/-- C7: the synthesizer is deterministic — two calls on identical inputs
yield identical records; the embedded function consumes nothing but its four
string arguments (the source reads no clock, randomness or global state). -/
theorem newAwsVolumeAttachmentState_deterministic
    (instanceID volumeName volumeID deviceName iid' vn' vid' dn' : String)
    (h1 : instanceID = iid') (h2 : volumeName = vn') (h3 : volumeID = vid')
    (h4 : deviceName = dn') :
    newAwsVolumeAttachmentState instanceID volumeName volumeID deviceName =
      newAwsVolumeAttachmentState iid' vn' vid' dn' := by
  subst h1; subst h2; subst h3; subst h4; rfl

/-- Witness for C7 at the fixture inputs. -/
theorem newAwsVolumeAttachmentState_deterministic_witness :
    newAwsVolumeAttachmentState "i-abc123" "mysrv_dsk0" "vol-123abc" "/dev/sdg" =
      newAwsVolumeAttachmentState "i-abc123" "mysrv_dsk0" "vol-123abc" "/dev/sdg" :=
  newAwsVolumeAttachmentState_deterministic "i-abc123" "mysrv_dsk0" "vol-123abc" "/dev/sdg"
    "i-abc123" "mysrv_dsk0" "vol-123abc" "/dev/sdg" rfl rfl rfl rfl

/-- C8: whenever the locator resolves the named resources to identifiers
`(iid, vid)`, the record import injects under the attachment key is the very
record show mode wraps for those identifiers — the same value, hence
byte-identical under any serializer. -/
theorem show_import_consistent (iN vN aN dN : String) (st : State) (k : Nat)
    (iid vid : String) (h : locate iN vN st.modules = some (k, iid, vid)) :
    ∃ st', injectVolumeAttachment iN vN aN dN st = .ok st' ∧
      ∃ m', st'.modules[k]? = some m' ∧
        List.lookup (attachmentKey aN) m'.resources =
          some (newAwsVolumeAttachmentState iid vN vid dN) ∧
        showMode iid vN vid aN dN =
          [(attachmentKey aN, newAwsVolumeAttachmentState iid vN vid dN)] := by
  obtain ⟨hk, hinj⟩ := @injectModules_of_locate_some iN vN aN dN st.modules k iid vid h
  refine ⟨{ st with modules := st.modules.set k (injectModule aN
      (newAwsVolumeAttachmentState iid vN vid dN) (st.modules.get ⟨k, hk⟩)) },
    by simp [injectVolumeAttachment, hinj, Except.map], ?_⟩
  refine ⟨injectModule aN (newAwsVolumeAttachmentState iid vN vid dN)
      (st.modules.get ⟨k, hk⟩), ?_, lookup_mapInsert_self _ _ _, rfl⟩
  exact List.getElem?_set_eq_of_lt _ hk

/-- Witness for C8 on the two-module fixture. -/
theorem show_import_consistent_witness :
    ∃ st', injectVolumeAttachment "mysrv" "mysrv_dsk0" "mysrv_dsk0_attch" "/dev/sdg"
        demoState = .ok st' ∧
      ∃ m', st'.modules[1]? = some m' ∧
        List.lookup (attachmentKey "mysrv_dsk0_attch") m'.resources =
          some (newAwsVolumeAttachmentState "i-11111111" "mysrv_dsk0" "vol-22222222"
            "/dev/sdg") ∧
        showMode "i-11111111" "mysrv_dsk0" "vol-22222222" "mysrv_dsk0_attch" "/dev/sdg" =
          [(attachmentKey "mysrv_dsk0_attch",
            newAwsVolumeAttachmentState "i-11111111" "mysrv_dsk0" "vol-22222222"
              "/dev/sdg")] :=
  show_import_consistent "mysrv" "mysrv_dsk0" "mysrv_dsk0_attch" "/dev/sdg" demoState 1
    "i-11111111" "vol-22222222" (by decide)

/-- C9: injection raises an error exactly when no module jointly contains
the two named resources; when the located module already holds a record
under the attachment key, injection succeeds with no error, silently
replaces that record with the newly synthesized one, and leaves the
module's resource count unchanged. -/
theorem inject_error_iff_notFound_and_silent_overwrite (iN vN aN dN : String) (st : State) :
    ((∃ e, injectVolumeAttachment iN vN aN dN st = .error e) ↔
      locate iN vN st.modules = none) ∧
    (∀ k iid vid (hk : k < st.modules.length),
      locate iN vN st.modules = some (k, iid, vid) →
      (List.lookup (attachmentKey aN) (st.modules.get ⟨k, hk⟩).resources).isSome = true →
      ∃ st', injectVolumeAttachment iN vN aN dN st = .ok st' ∧
        ∃ m', st'.modules[k]? = some m' ∧
          m'.resources.length = (st.modules.get ⟨k, hk⟩).resources.length ∧
          List.lookup (attachmentKey aN) m'.resources =
            some (newAwsVolumeAttachmentState iid vN vid dN)) := by
  constructor
  · constructor
    · rintro ⟨e, he⟩
      cases hl : locate iN vN st.modules with
      | none => rfl
      | some r =>
        obtain ⟨k, iid, vid⟩ := r
        obtain ⟨hk, hinj⟩ := @injectModules_of_locate_some iN vN aN dN st.modules k iid vid hl
        rw [injectVolumeAttachment, hinj] at he
        exact absurd he (by simp [Except.map])
    · intro hl
      exact ⟨notFoundMessage iN vN,
        by simp [injectVolumeAttachment, injectModules_of_locate_none hl, Except.map]⟩
  · intro k iid vid hk hl hpre
    obtain ⟨hk', hinj⟩ := @injectModules_of_locate_some iN vN aN dN st.modules k iid vid hl
    refine ⟨{ st with modules := st.modules.set k (injectModule aN
        (newAwsVolumeAttachmentState iid vN vid dN) (st.modules.get ⟨k, hk'⟩)) },
      by simp [injectVolumeAttachment, hinj, Except.map], ?_⟩
    refine ⟨injectModule aN (newAwsVolumeAttachmentState iid vN vid dN)
        (st.modules.get ⟨k, hk'⟩), List.getElem?_set_eq_of_lt _ hk', ?_,
        lookup_mapInsert_self _ _ _⟩
    exact length_mapInsert_isSome _ hpre

/-- Witness for C9: on a document whose module already holds a record under
`aws_volume_attachment.mysrv_dsk0_attch`, injection succeeds, the resource
count stays at 3, and the key now holds the synthesized record. -/
theorem inject_silent_overwrite_witness :
    ∃ st', injectVolumeAttachment "mysrv" "mysrv_dsk0" "mysrv_dsk0_attch" "/dev/sdg"
        demoStatePre = .ok st' ∧
      ∃ m', st'.modules[0]? = some m' ∧
        m'.resources.length =
          (demoStatePre.modules.get ⟨0, by decide⟩).resources.length ∧
        List.lookup (attachmentKey "mysrv_dsk0_attch") m'.resources =
          some (newAwsVolumeAttachmentState "i-11111111" "mysrv_dsk0" "vol-22222222"
            "/dev/sdg") :=
  (inject_error_iff_notFound_and_silent_overwrite "mysrv" "mysrv_dsk0" "mysrv_dsk0_attch"
      "/dev/sdg" demoStatePre).2 0 "i-11111111" "vol-22222222" (by decide) (by decide)
    (by decide)

/-- C10: the synthesized identifier — the primary record's ID and the `id`
attribute — depends only on the device name, instance identifier and volume
identifier: varying the volume resource name leaves it unchanged and only
moves the dependency list entry, and the attachment name (which is not even
an input of the synthesizer, only the wrapping key) cannot affect the
wrapped record. -/
theorem identifier_independent_of_resource_names
    (instanceID volumeID deviceName volumeName vn' aN aN' : String) :
    (newAwsVolumeAttachmentState instanceID volumeName volumeID deviceName).primary.id =
      (newAwsVolumeAttachmentState instanceID vn' volumeID deviceName).primary.id ∧
    List.lookup "id"
        (newAwsVolumeAttachmentState instanceID volumeName volumeID deviceName).primary.attributes =
      List.lookup "id"
        (newAwsVolumeAttachmentState instanceID vn' volumeID deviceName).primary.attributes ∧
    (newAwsVolumeAttachmentState instanceID volumeName volumeID deviceName).dependencies =
      ["aws_ebs_volume." ++ volumeName] ∧
    (showMode instanceID volumeName volumeID aN deviceName).map Prod.snd =
      (showMode instanceID volumeName volumeID aN' deviceName).map Prod.snd :=
  ⟨rfl, rfl, rfl, rfl⟩

end TfEbsAttach
